import Mathlib

/-!
Verification of the watchmee companion server core: the sliding context
window, the capture-count feedback gate, todo.txt parsing, persona
activation, tag-aware model-identifier matching, hot model reload, and the
analyze-activity orchestration.  Definitions are shallow embeddings of the
Python source (`src/server/app/models.py`, `services/context.py`,
`services/ollama.py`, `routes.py`): text is `String`/`List Char`, instants
are natural numbers of minutes, external inference results are passed in as
`Option String` oracles (the gateway converts every failure to `None`).
-/

/-- `MicrophoneStatus` enum from `models.py`. -/
inductive MicrophoneStatus where
  | muted
  | unmuted
  | unknown
deriving DecidableEq, Repr

/-- `MediaStatus` enum from `models.py`. -/
inductive MediaStatus where
  | playing
  | paused
  | stopped
  | unknown
deriving DecidableEq, Repr

/-- `UserStatus` enum from `models.py`. -/
inductive UserStatus where
  | active
  | in_meeting
  | idle
  | away
deriving DecidableEq, Repr

/-- `ContextEntry` model from `models.py`; the timestamp is modelled as
minutes since an epoch. -/
structure ContextEntry where
  timestamp : Nat
  window_title : String
  class_name : String
  media_status : MediaStatus
  user_status : UserStatus
  vision_summary : Option String
deriving DecidableEq, Repr

/-- `ContextWindow` model from `models.py`. -/
structure ContextWindow where
  entries : List ContextEntry
  max_size : Nat
deriving DecidableEq, Repr

/-- `ContextWindow.add_entry` from `models.py`: append, then `pop(0)` if the
length exceeds `max_size`. -/
def ContextWindow.add_entry (w : ContextWindow) (entry : ContextEntry) : ContextWindow :=
  let entries := w.entries ++ [entry]
  if entries.length > w.max_size then { w with entries := entries.drop 1 }
  else { w with entries := entries }

/-- Python `s or default` for an optional string: `None` and the empty
string are both falsy. -/
def pyOrStr (o : Option String) (d : String) : String :=
  match o with
  | none => d
  | some s => if s = "" then d else s

/-- Two-digit rendering of a number, as `strftime` pads hours and minutes. -/
def twoDigits (n : Nat) : String :=
  (if n < 10 then "0" else "") ++ toString n

/-- `timestamp.strftime("%H:%M")` over the minutes-since-epoch model. -/
def formatHM (ts : Nat) : String :=
  twoDigits (ts / 60 % 24) ++ ":" ++ twoDigits (ts % 60)

/-- `ContextWindow.get_summary` from `models.py`: the last five entries
(`entries[-5:]`), one formatted line each, joined with newlines. -/
def ContextWindow.get_summary (w : ContextWindow) : String :=
  if w.entries = [] then "No recent activity recorded."
  else
    String.intercalate "\n" <|
      (w.entries.drop (w.entries.length - 5)).map fun e =>
        "[" ++ formatHM e.timestamp ++ "] " ++ e.class_name ++ "-" ++ e.window_title ++
          ": " ++ pyOrStr e.vision_summary "No visual summary"

/-- `Persona` model from `models.py`. -/
structure Persona where
  name : String
  short : String
  icon : String
  description : String
  tone : String
  focus_areas : List String
  prompt_template : String
deriving DecidableEq, Repr

/-- `TodoItem` model from `models.py`; a priority is the single character
`line[1]` of the source line. -/
structure TodoItem where
  text : String
  completed : Bool
  priority : Option Char
deriving DecidableEq, Repr

/-- `ContextManager` state from `services/context.py` (the settings values
`context_window_size` and `captures_before_feedback` are already folded into
`context_window.max_size` and `captures_before_feedback`). -/
structure ContextManager where
  context_window : ContextWindow
  personas : List Persona
  active_persona : Option Persona
  todo_items : List TodoItem
  capture_count : Nat
  captures_before_feedback : Nat
deriving DecidableEq, Repr

/-- `ContextManager.__init__`: empty window of the configured size, no
personas or todos, capture count zero. -/
def ContextManager.init (context_window_size captures_before_feedback : Nat) : ContextManager :=
  { context_window := { entries := [], max_size := context_window_size }
    personas := []
    active_persona := none
    todo_items := []
    capture_count := 0
    captures_before_feedback := captures_before_feedback }

/-- The argument bundle of `ContextManager.add_context_entry`
(`services/context.py`), with the `datetime.utcnow()` instant passed in
explicitly. -/
structure EntryArgs where
  ts : Nat
  window_title : String
  class_name : String
  media_status : MediaStatus
  user_status : UserStatus
  vision_summary : Option String
deriving DecidableEq, Repr

/-- `ContextManager.add_context_entry`: build the entry, add it to the
window, increment `capture_count`. -/
def ContextManager.add_context_entry (m : ContextManager) (a : EntryArgs) : ContextManager :=
  let entry : ContextEntry :=
    { timestamp := a.ts
      window_title := a.window_title
      class_name := a.class_name
      media_status := a.media_status
      user_status := a.user_status
      vision_summary := a.vision_summary }
  { m with
    context_window := m.context_window.add_entry entry
    capture_count := m.capture_count + 1 }

/-- `ContextManager.should_generate_feedback`:
`capture_count >= captures_before_feedback`. -/
def ContextManager.should_generate_feedback (m : ContextManager) : Bool :=
  m.captures_before_feedback ≤ m.capture_count

/-- `ContextManager.reset_capture_count`: set the counter back to zero. -/
def ContextManager.reset_capture_count (m : ContextManager) : ContextManager :=
  { m with capture_count := 0 }

/-- `ContextManager.get_context_summary`. -/
def ContextManager.get_context_summary (m : ContextManager) : String :=
  m.context_window.get_summary

/-- `ContextManager.set_active_persona`: look up by exact name, switch and
report success, or report failure leaving the state unchanged. -/
def ContextManager.set_active_persona (m : ContextManager) (name : String) :
    Bool × ContextManager :=
  match m.personas.find? (fun p => p.name = name) with
  | some p => (true, { m with active_persona := some p })
  | none => (false, m)

/-- Folding a list of entries into a window (`add_entry` repeatedly). -/
def addEntries (w : ContextWindow) (xs : List ContextEntry) : ContextWindow :=
  xs.foldl ContextWindow.add_entry w

/-- Folding a list of observations into a manager
(`add_context_entry` repeatedly). -/
def addObservations (m : ContextManager) (xs : List EntryArgs) : ContextManager :=
  xs.foldl ContextManager.add_context_entry m

/-! ### Todo parsing (`ContextManager.load_todos`) -/

/-- Python `str.strip()`: remove whitespace from both ends. -/
def stripChars (cs : List Char) : List Char :=
  ((cs.dropWhile Char.isWhitespace).reverse.dropWhile Char.isWhitespace).reverse

/-- Python `str.split(sep)` for a single-character separator: split at every
occurrence, keeping empty pieces. -/
def splitOnChar (sep : Char) : List Char → List (List Char)
  | [] => [[]]
  | c :: cs =>
    let r := splitOnChar sep cs
    if c = sep then [] :: r
    else (c :: r.headI) :: r.tail

/-- The line after the completion marker: the stripped line with a leading
`"x "` removed when present.  Used to state what the priority rule sees. -/
def bodyAfterCompleted (raw : List Char) : List Char :=
  let line := stripChars raw
  if List.isPrefixOf ['x', ' '] line then line.drop 2 else line

/-- One iteration of the `load_todos` loop (`services/context.py`): strip
the line, skip it when empty, read a leading `"x "` as the completion
marker, and when the line starts with `'('`, has length above two and has
`')'` at index two, take index one as the priority and drop the first four
characters (stripping again) for the body. -/
def parseTodoLine (raw : List Char) : Option TodoItem :=
  let line := stripChars raw
  if line = [] then none
  else
    let completed := List.isPrefixOf ['x', ' '] line
    let line2 := if completed then line.drop 2 else line
    if line2.head? = some '(' ∧ 2 < line2.length ∧ line2.get? 2 = some ')' then
      some { text := String.mk (stripChars (line2.drop 4))
             completed := completed
             priority := line2.get? 1 }
    else
      some { text := String.mk line2, completed := completed, priority := none }

/-- `ContextManager.load_todos` applied to already-read file content:
`content.strip().split('\n')`, then the per-line parse. -/
def load_todos (content : String) : List TodoItem :=
  ((splitOnChar '\n' (stripChars content.data)).filterMap parseTodoLine)

/-! ### Model-identifier matching and hot reload (`services/ollama.py`) -/

/-- `model.split(':')` over the character-list view of an identifier. -/
def splitColon (m : String) : List (List Char) :=
  splitOnChar ':' m.data

/-- `model.split(':')[0]`: the base name before the first colon. -/
def modelBase (m : String) : List Char :=
  (splitColon m).headI

/-- `model.split(':')[1] if ':' in model else None`: the explicit tag. -/
def modelTag (m : String) : Option (List Char) :=
  (splitColon m).get? 1

/-- The body of the `for avail in available` loop of
`OllamaService._model_exists`: skip on different base names, match when
either side lacks a tag or the tags agree. -/
def matchesAvail (model avail : String) : Bool :=
  if modelBase model ≠ modelBase avail then false
  else if modelTag model = none ∨ modelTag avail = none then true
  else if modelTag model = modelTag avail then true
  else false

/-- `OllamaService._model_exists`: exact membership first, then the
tag-aware loop. -/
def _model_exists (model : String) (available : List String) : Bool :=
  if model ∈ available then true
  else available.any (matchesAvail model)

/-- Mutable model selection of `OllamaService`. -/
structure OllamaService where
  vision_model : String
  reasoning_model : String
deriving DecidableEq, Repr

/-- Python truthiness of an `Optional[str]` argument: `None` and `""` are
falsy. -/
def pyTruthy (o : Option String) : Bool :=
  match o with
  | none => false
  | some s => s ≠ ""

/-- `OllamaService.reload_models` with the `list_models()` result passed in
as `available`: validate every (truthy) requested identifier first and
return `false` leaving the selection untouched on any failure, otherwise
update the requested selections and return `true`. -/
def reload_models (s : OllamaService) (vision_model reasoning_model : Option String)
    (available : List String) : Bool × OllamaService :=
  if pyTruthy vision_model && !(_model_exists (vision_model.getD "") available) then
    (false, s)
  else if pyTruthy reasoning_model && !(_model_exists (reasoning_model.getD "") available) then
    (false, s)
  else
    let s1 := if pyTruthy vision_model then
      { s with vision_model := vision_model.getD "" } else s
    let s2 := if pyTruthy reasoning_model then
      { s1 with reasoning_model := reasoning_model.getD "" } else s1
    (true, s2)

/-! ### The analyze-activity orchestrator (`routes.py`) -/

/-- `ClientMetadata` model from `models.py`. -/
structure ClientMetadata where
  window_title : String
  class_name : String
  media_status : MediaStatus
  media_info : Option String
  microphone_status : MicrophoneStatus
  user_status : UserStatus
  timestamp : Nat
  compositor : Option String
deriving DecidableEq, Repr

/-- `FeedbackResponse` model from `models.py`. -/
structure FeedbackResponse where
  feedback : String
  persona_used : String
  context_summary : String
  user_status : UserStatus
  suppress_notification : Bool
  timestamp : Nat
deriving DecidableEq, Repr

/-- One inbound `/analyze` request: the parsed metadata, whether a
non-empty image was attached, and the two inference-oracle answers — the
value `analyze_image` would return if invoked, and the value
`generate_feedback` would return if invoked (the gateway maps every failure
and every empty model answer to `none`). -/
structure AnalyzeRequest where
  meta : ClientMetadata
  image_present : Bool
  vision_result : Option String
  reasoning_result : Option String
deriving DecidableEq, Repr

/-- What one `analyze_activity` call produces: the HTTP response, the
updated manager state, and whether the reasoning model was invoked. -/
structure AnalyzeOutcome where
  response : FeedbackResponse
  mgr : ContextManager
  invoked_reasoning : Bool
deriving DecidableEq, Repr

/-- `context_mgr.active_persona.name if context_mgr.active_persona else
"Default"` from the response construction in `routes.py`. -/
def personaUsed (m : ContextManager) : String :=
  match m.active_persona with
  | some p => p.name
  | none => "Default"

/-- `analyze_activity` from `routes.py` (after successful metadata
parsing): decide meeting suppression, resolve the vision summary (oracle
answer if an image is present, else the fixed placeholder; a `none` oracle
answer flows through unchanged), append to the window (incrementing the
gate), then branch: meeting sentinel / empty accumulating feedback /
reasoning-model feedback with the fixed fallback and a gate reset. -/
def analyze_activity (m0 : ContextManager) (q : AnalyzeRequest) : AnalyzeOutcome :=
  let suppress : Bool := q.meta.user_status = UserStatus.in_meeting
  let vision_summary : Option String :=
    if q.image_present then q.vision_result
    else some ("User is in: " ++ q.meta.window_title)
  let m1 := m0.add_context_entry
    { ts := q.meta.timestamp
      window_title := q.meta.window_title
      class_name := q.meta.class_name
      media_status := q.meta.media_status
      user_status := q.meta.user_status
      vision_summary := vision_summary }
  let context_summary := m1.get_context_summary
  let should_generate := m1.should_generate_feedback
  let branch : String × ContextManager × Bool :=
    if suppress then ("[Notification suppressed - user in meeting]", m1, false)
    else if !should_generate then ("", m1, false)
    else (pyOrStr q.reasoning_result "Keep up the good work!", m1.reset_capture_count, true)
  { response :=
      { feedback := branch.1
        persona_used := personaUsed branch.2.1
        context_summary := context_summary
        user_status := q.meta.user_status
        suppress_notification := suppress || !should_generate
        timestamp := q.meta.timestamp }
    mgr := branch.2.1
    invoked_reasoning := branch.2.2 }

/-- The manager state a request leaves behind. -/
def analyzeStep (m : ContextManager) (q : AnalyzeRequest) : ContextManager :=
  (analyze_activity m q).mgr

/-- A concrete context entry used by witnesses. -/
def sampleEntry (n : Nat) : ContextEntry :=
  { timestamp := n, window_title := "w", class_name := "c",
    media_status := MediaStatus.unknown, user_status := UserStatus.active,
    vision_summary := none }

/-- Concrete `add_context_entry` arguments used by witnesses. -/
def sampleArgs (n : Nat) : EntryArgs :=
  { ts := n, window_title := "w", class_name := "c",
    media_status := MediaStatus.unknown, user_status := UserStatus.active,
    vision_summary := none }

/-- A concrete in-meeting observation used by witnesses. -/
def meetingMeta : ClientMetadata :=
  { window_title := "zoom", class_name := "Zoom", media_status := MediaStatus.unknown,
    media_info := none, microphone_status := MicrophoneStatus.unmuted,
    user_status := UserStatus.in_meeting, timestamp := 600, compositor := none }

/-- A concrete active (non-meeting) observation used by witnesses. -/
def activeMeta : ClientMetadata :=
  { window_title := "editor", class_name := "code", media_status := MediaStatus.unknown,
    media_info := none, microphone_status := MicrophoneStatus.muted,
    user_status := UserStatus.active, timestamp := 60, compositor := none }

/-- A concrete non-meeting request without an image, used by witnesses. -/
def activeReq : AnalyzeRequest :=
  { meta := activeMeta, image_present := false, vision_result := none,
    reasoning_result := none }

/-- A concrete persona used by witnesses. -/
def samplePersona : Persona :=
  { name := "Coach", short := "C", icon := "i", description := "d", tone := "t",
    focus_areas := [], prompt_template := "p" }

/-- A manager holding `samplePersona`, used by witnesses. -/
def personaMgr : ContextManager :=
  { ContextManager.init 10 5 with personas := [samplePersona] }

lemma addEntries_cons (w : ContextWindow) (e : ContextEntry) (obs : List ContextEntry) :
    addEntries w (e :: obs) = addEntries (w.add_entry e) obs := rfl

lemma addEntries_closed (obs : List ContextEntry) :
    ∀ (l : List ContextEntry) (K : Nat), l.length ≤ K →
      (addEntries ⟨l, K⟩ obs).entries = (l ++ obs).drop (l.length + obs.length - K) ∧
      (addEntries ⟨l, K⟩ obs).max_size = K := by
  induction obs with
  | nil =>
      intro l K h
      simp [addEntries, Nat.sub_eq_zero_of_le h]
  | cons e obs ih =>
      intro l K h
      rw [addEntries_cons]
      by_cases hl : K < l.length + 1
      · have hK : l.length = K := by omega
        have hcond : (l ++ [e]).length > K := by simp; omega
        have hadd : ContextWindow.add_entry ⟨l, K⟩ e = ⟨(l ++ [e]).drop 1, K⟩ := by
          simp only [ContextWindow.add_entry]
          rw [if_pos hcond]
        rw [hadd]
        have hlen : ((l ++ [e]).drop 1).length ≤ K := by
          simp [List.length_drop]; omega
        obtain ⟨h1, h2⟩ := ih ((l ++ [e]).drop 1) K hlen
        refine ⟨?_, h2⟩
        rw [h1]
        have hlen2 : ((l ++ [e]).drop 1).length = K := by
          simp [List.length_drop]; omega
        rw [hlen2]
        have hsplit : (l ++ [e]).drop 1 ++ obs = ((l ++ [e]) ++ obs).drop 1 :=
          (List.drop_append_of_le_length (by simp)).symm
        rw [hsplit, List.drop_drop]
        have hassoc : (l ++ [e]) ++ obs = l ++ e :: obs := by simp
        rw [hassoc]
        congr 1
        simp
        omega
      · have hcond : ¬ ((l ++ [e]).length > K) := by simp; omega
        have hadd : ContextWindow.add_entry ⟨l, K⟩ e = ⟨l ++ [e], K⟩ := by
          simp only [ContextWindow.add_entry]
          rw [if_neg hcond]
        rw [hadd]
        obtain ⟨h1, h2⟩ := ih (l ++ [e]) K (by simp; omega)
        refine ⟨?_, h2⟩
        rw [h1]
        have hassoc : (l ++ [e]) ++ obs = l ++ e :: obs := by simp
        rw [hassoc]
        congr 1
        simp
        omega

/-- Claim C1: a context window created with positive capacity `K` holds, after any
sequence of `N` appended observations, exactly `min N K` entries — the `K` most
recently appended, in submission order (the suffix of the append sequence); its
length never exceeds `K` after any prefix of the appends; and an insertion into a
full window removes exactly one entry, the front one. -/
theorem C1_sliding_window (K : Nat) (hK : 0 < K) (obs : List ContextEntry) :
    (addEntries ⟨[], K⟩ obs).entries = obs.drop (obs.length - K)
    ∧ (addEntries ⟨[], K⟩ obs).entries.length = min obs.length K
    ∧ (∀ n : Nat, (addEntries ⟨[], K⟩ (obs.take n)).entries.length ≤ K)
    ∧ (∀ (w : ContextWindow) (e : ContextEntry), w.max_size ≤ w.entries.length →
        (w.add_entry e).entries = (w.entries ++ [e]).drop 1) := by
  have base := addEntries_closed obs [] K (by simp)
  refine ⟨?_, ?_, ?_, ?_⟩
  · have := base.1
    simpa using this
  · have := base.1
    have hlen : (addEntries ⟨[], K⟩ obs).entries.length = (obs.drop (obs.length - K)).length := by
      rw [this]; simp
    rw [hlen, List.length_drop]
    omega
  · intro n
    have := (addEntries_closed (obs.take n) [] K (by simp)).1
    rw [this]
    simp only [List.length_drop]
    simp
    omega
  · intro w e hw
    have hcond : (w.entries ++ [e]).length > w.max_size := by simp; omega
    simp only [ContextWindow.add_entry]
    rw [if_pos hcond]

lemma addObservations_count (xs : List EntryArgs) :
    ∀ m : ContextManager, (addObservations m xs).capture_count = m.capture_count + xs.length := by
  induction xs with
  | nil => intro m; simp [addObservations]
  | cons a xs ih =>
      intro m
      have : addObservations m (a :: xs) = addObservations (m.add_context_entry a) xs := rfl
      rw [this, ih]
      simp [ContextManager.add_context_entry]
      omega

/-- Claim C2: appending `M` observations with no intervening reset raises
`capture_count` from 0 to exactly `M`, each append incrementing it by exactly 1;
`should_generate_feedback` is true iff `capture_count` has reached the configured
threshold (inclusive); and immediately after `reset_capture_count` the count is 0,
so the gate is closed whenever the threshold is positive. -/
theorem C2_feedback_gate (m : ContextManager) (xs : List EntryArgs)
    (h0 : m.capture_count = 0) :
    (addObservations m xs).capture_count = xs.length
    ∧ (∀ (m' : ContextManager) (a : EntryArgs),
        (m'.add_context_entry a).capture_count = m'.capture_count + 1)
    ∧ (∀ m' : ContextManager,
        m'.should_generate_feedback = true ↔ m'.captures_before_feedback ≤ m'.capture_count)
    ∧ (∀ m' : ContextManager,
        m'.reset_capture_count.capture_count = 0
        ∧ (0 < m'.captures_before_feedback →
            m'.reset_capture_count.should_generate_feedback = false)) := by
  refine ⟨?_, ?_, ?_, ?_⟩
  · rw [addObservations_count, h0]
    omega
  · intro m' a
    simp [ContextManager.add_context_entry]
  · intro m'
    simp [ContextManager.should_generate_feedback]
  · intro m'
    refine ⟨rfl, ?_⟩
    intro hpos
    simp [ContextManager.reset_capture_count, ContextManager.should_generate_feedback]
    omega

/-- Claim C3: for an observation whose inferred user status is `in_meeting`, the
response's feedback is the fixed meeting-suppression sentinel,
`suppress_notification` is true, the reasoning model is not invoked regardless of
gate state, and the gate counter is still incremented by exactly 1 for that
observation (not reset). -/
theorem C3_meeting_suppression (m : ContextManager) (q : AnalyzeRequest)
    (h : q.meta.user_status = UserStatus.in_meeting) :
    (analyze_activity m q).response.feedback = "[Notification suppressed - user in meeting]"
    ∧ (analyze_activity m q).response.suppress_notification = true
    ∧ (analyze_activity m q).invoked_reasoning = false
    ∧ (analyze_activity m q).mgr.capture_count = m.capture_count + 1 := by
  simp [analyze_activity, h, ContextManager.add_context_entry]

lemma analyze_threshold_preserved (m : ContextManager) (q : AnalyzeRequest) :
    (analyze_activity m q).mgr.captures_before_feedback = m.captures_before_feedback := by
  by_cases hs : q.meta.user_status = UserStatus.in_meeting
  · simp [analyze_activity, ContextManager.add_context_entry, hs]
  · by_cases hg : m.captures_before_feedback ≤ m.capture_count + 1
    · simp [analyze_activity, ContextManager.add_context_entry,
        ContextManager.should_generate_feedback, ContextManager.reset_capture_count, hs, hg]
    · simp [analyze_activity, ContextManager.add_context_entry,
        ContextManager.should_generate_feedback, hs, hg]

lemma analyze_accumulating (m : ContextManager) (q : AnalyzeRequest)
    (hm : q.meta.user_status ≠ UserStatus.in_meeting)
    (hlt : m.capture_count + 1 < m.captures_before_feedback) :
    (analyze_activity m q).response.feedback = ""
    ∧ (analyze_activity m q).response.suppress_notification = true
    ∧ (analyze_activity m q).mgr.capture_count = m.capture_count + 1
    ∧ (analyze_activity m q).mgr.captures_before_feedback = m.captures_before_feedback
    ∧ (analyze_activity m q).invoked_reasoning = false := by
  have hg : ¬ (m.captures_before_feedback ≤ m.capture_count + 1) := by omega
  simp [analyze_activity, ContextManager.add_context_entry,
    ContextManager.should_generate_feedback, hm, hg]

lemma analyze_firing (m : ContextManager) (q : AnalyzeRequest)
    (hm : q.meta.user_status ≠ UserStatus.in_meeting)
    (hge : m.captures_before_feedback ≤ m.capture_count + 1) :
    (analyze_activity m q).response.feedback = pyOrStr q.reasoning_result "Keep up the good work!"
    ∧ (analyze_activity m q).response.suppress_notification = false
    ∧ (analyze_activity m q).mgr.capture_count = 0
    ∧ (analyze_activity m q).mgr.captures_before_feedback = m.captures_before_feedback
    ∧ (analyze_activity m q).invoked_reasoning = true := by
  simp [analyze_activity, ContextManager.add_context_entry,
    ContextManager.should_generate_feedback, ContextManager.reset_capture_count, hm, hge]

lemma pyOrStr_ne_empty (o : Option String) (d : String) (hd : d ≠ "") :
    pyOrStr o d ≠ "" := by
  match o with
  | none => simp only [pyOrStr]; exact hd
  | some s =>
      by_cases hs : s = ""
      · simp only [pyOrStr, hs, if_pos]
        exact hd
      · simp only [pyOrStr, if_neg hs]
        exact hs

lemma analyze_flag_iff (m : ContextManager) (q : AnalyzeRequest) :
    (analyze_activity m q).response.suppress_notification = true ↔
      ((analyze_activity m q).response.feedback = ""
        ∨ q.meta.user_status = UserStatus.in_meeting) := by
  by_cases hm : q.meta.user_status = UserStatus.in_meeting
  · simp [analyze_activity, hm]
  · by_cases hg : m.captures_before_feedback ≤ m.capture_count + 1
    · have hne := pyOrStr_ne_empty q.reasoning_result "Keep up the good work!" (by decide)
      simp [analyze_activity, ContextManager.add_context_entry,
        ContextManager.should_generate_feedback, hm, hg, hne]
    · simp [analyze_activity, ContextManager.add_context_entry,
        ContextManager.should_generate_feedback, hm, hg]

/-- Claim C4: with threshold 5 and six non-meeting submissions starting from a
fresh gate, the first four responses have empty feedback and
`suppress_notification = true`; the fifth has non-empty feedback,
`suppress_notification = false`, and resets the counter to 0, so the sixth leaves
the counter at 1, not 6; and in general a response's suppression flag is true
exactly when its feedback text is empty or the meeting-suppression path was
taken. -/
theorem C4_threshold_five (m0 : ContextManager) (q1 q2 q3 q4 q5 q6 : AnalyzeRequest)
    (h0 : m0.capture_count = 0) (h5 : m0.captures_before_feedback = 5)
    (hq1 : q1.meta.user_status ≠ UserStatus.in_meeting)
    (hq2 : q2.meta.user_status ≠ UserStatus.in_meeting)
    (hq3 : q3.meta.user_status ≠ UserStatus.in_meeting)
    (hq4 : q4.meta.user_status ≠ UserStatus.in_meeting)
    (hq5 : q5.meta.user_status ≠ UserStatus.in_meeting)
    (hq6 : q6.meta.user_status ≠ UserStatus.in_meeting) :
    ((analyze_activity m0 q1).response.feedback = ""
      ∧ (analyze_activity m0 q1).response.suppress_notification = true)
    ∧ ((analyze_activity (analyzeStep m0 q1) q2).response.feedback = ""
      ∧ (analyze_activity (analyzeStep m0 q1) q2).response.suppress_notification = true)
    ∧ ((analyze_activity (analyzeStep (analyzeStep m0 q1) q2) q3).response.feedback = ""
      ∧ (analyze_activity (analyzeStep (analyzeStep m0 q1) q2) q3).response.suppress_notification
          = true)
    ∧ ((analyze_activity (analyzeStep (analyzeStep (analyzeStep m0 q1) q2) q3)
          q4).response.feedback = ""
      ∧ (analyze_activity (analyzeStep (analyzeStep (analyzeStep m0 q1) q2) q3)
          q4).response.suppress_notification = true)
    ∧ ((analyze_activity (analyzeStep (analyzeStep (analyzeStep (analyzeStep m0 q1) q2) q3) q4)
          q5).response.feedback ≠ ""
      ∧ (analyze_activity (analyzeStep (analyzeStep (analyzeStep (analyzeStep m0 q1) q2) q3) q4)
          q5).response.suppress_notification = false
      ∧ (analyzeStep (analyzeStep (analyzeStep (analyzeStep (analyzeStep m0 q1) q2) q3) q4)
          q5).capture_count = 0)
    ∧ (analyzeStep (analyzeStep (analyzeStep (analyzeStep (analyzeStep (analyzeStep m0 q1) q2)
          q3) q4) q5) q6).capture_count = 1
    ∧ (∀ (m : ContextManager) (q : AnalyzeRequest),
        (analyze_activity m q).response.suppress_notification = true ↔
          ((analyze_activity m q).response.feedback = ""
            ∨ q.meta.user_status = UserStatus.in_meeting)) := by
  have s1 := analyze_accumulating m0 q1 hq1 (by omega)
  have c1 : (analyzeStep m0 q1).capture_count = 1 := by
    have h := s1.2.2.1
    simp only [analyzeStep] at *
    omega
  have t1 : (analyzeStep m0 q1).captures_before_feedback = 5 := by
    simp only [analyzeStep]
    rw [analyze_threshold_preserved]
    exact h5
  have s2 := analyze_accumulating (analyzeStep m0 q1) q2 hq2 (by omega)
  have c2 : (analyzeStep (analyzeStep m0 q1) q2).capture_count = 2 := by
    have h := s2.2.2.1
    simp only [analyzeStep] at *
    omega
  have t2 : (analyzeStep (analyzeStep m0 q1) q2).captures_before_feedback = 5 := by
    simp only [analyzeStep]
    rw [analyze_threshold_preserved]
    exact t1
  have s3 := analyze_accumulating (analyzeStep (analyzeStep m0 q1) q2) q3 hq3 (by omega)
  have c3 : (analyzeStep (analyzeStep (analyzeStep m0 q1) q2) q3).capture_count = 3 := by
    have h := s3.2.2.1
    simp only [analyzeStep] at *
    omega
  have t3 : (analyzeStep (analyzeStep (analyzeStep m0 q1) q2) q3).captures_before_feedback
      = 5 := by
    simp only [analyzeStep]
    rw [analyze_threshold_preserved]
    exact t2
  have s4 := analyze_accumulating (analyzeStep (analyzeStep (analyzeStep m0 q1) q2) q3) q4 hq4
    (by omega)
  have c4 : (analyzeStep (analyzeStep (analyzeStep (analyzeStep m0 q1) q2) q3)
      q4).capture_count = 4 := by
    have h := s4.2.2.1
    simp only [analyzeStep] at *
    omega
  have t4 : (analyzeStep (analyzeStep (analyzeStep (analyzeStep m0 q1) q2) q3)
      q4).captures_before_feedback = 5 := by
    simp only [analyzeStep]
    rw [analyze_threshold_preserved]
    exact t3
  have s5 := analyze_firing (analyzeStep (analyzeStep (analyzeStep (analyzeStep m0 q1) q2) q3)
    q4) q5 hq5 (by omega)
  have c5 : (analyzeStep (analyzeStep (analyzeStep (analyzeStep (analyzeStep m0 q1) q2) q3) q4)
      q5).capture_count = 0 := by
    have h := s5.2.2.1
    simp only [analyzeStep] at *
    omega
  have t5 : (analyzeStep (analyzeStep (analyzeStep (analyzeStep (analyzeStep m0 q1) q2) q3) q4)
      q5).captures_before_feedback = 5 := by
    simp only [analyzeStep]
    rw [analyze_threshold_preserved]
    exact t4
  have s6 := analyze_accumulating (analyzeStep (analyzeStep (analyzeStep (analyzeStep
    (analyzeStep m0 q1) q2) q3) q4) q5) q6 hq6 (by omega)
  have c6 : (analyzeStep (analyzeStep (analyzeStep (analyzeStep (analyzeStep (analyzeStep m0 q1)
      q2) q3) q4) q5) q6).capture_count = 1 := by
    have h := s6.2.2.1
    simp only [analyzeStep] at *
    omega
  have hne5 : (analyze_activity (analyzeStep (analyzeStep (analyzeStep (analyzeStep m0 q1) q2)
      q3) q4) q5).response.feedback ≠ "" := by
    rw [s5.1]
    exact pyOrStr_ne_empty _ _ (by decide)
  exact ⟨⟨s1.1, s1.2.1⟩, ⟨s2.1, s2.2.1⟩, ⟨s3.1, s3.2.1⟩, ⟨s4.1, s4.2.1⟩,
    ⟨hne5, s5.2.1, c5⟩, c6, fun m q => analyze_flag_iff m q⟩

lemma isPrefixOf_two_iff (a b : Char) (l : List Char) :
    List.isPrefixOf [a, b] l = true ↔ ∃ rest, l = a :: b :: rest := by
  rw [List.isPrefixOf_iff_prefix]
  constructor
  · rintro ⟨t, ht⟩
    exact ⟨t, ht.symm⟩
  · rintro ⟨t, rfl⟩
    exact ⟨t, rfl⟩

lemma priorityCond_iff (l : List Char) (c : Char) :
    ((l.head? = some '(' ∧ 2 < l.length ∧ l.get? 2 = some ')') ∧ l.get? 1 = some c)
    ↔ ∃ rest, l = '(' :: c :: ')' :: rest := by
  constructor
  · rintro ⟨⟨h1, h2, h3⟩, h4⟩
    match l with
    | [] => simp at h1
    | [a] => simp at h2
    | [a, b] => simp at h2
    | a :: b :: d :: rest =>
        simp at h1 h3 h4
        exact ⟨rest, by rw [h1, h3, h4]⟩
  · rintro ⟨rest, rfl⟩
    refine ⟨⟨rfl, by simp, rfl⟩, rfl⟩

lemma parseTodoLine_characterization (raw : List Char) :
    (parseTodoLine raw = none ↔ stripChars raw = [])
    ∧ (∀ item : TodoItem, parseTodoLine raw = some item →
        (item.completed = true ↔ ∃ rest, stripChars raw = 'x' :: ' ' :: rest)
        ∧ (∀ c : Char, item.priority = some c ↔
            ∃ rest, bodyAfterCompleted raw = '(' :: c :: ')' :: rest)
        ∧ (∀ (c : Char) (rest : List Char), bodyAfterCompleted raw = '(' :: c :: ')' :: rest →
            item.text = String.mk (stripChars (rest.drop 1)))
        ∧ (item.priority = none → item.text = String.mk (bodyAfterCompleted raw))) := by
  by_cases hnil : stripChars raw = []
  · constructor
    · simp [parseTodoLine, hnil]
    · intro item hitem
      simp [parseTodoLine, hnil] at hitem
  · have hbody : bodyAfterCompleted raw =
        (if List.isPrefixOf ['x', ' '] (stripChars raw) then (stripChars raw).drop 2
         else stripChars raw) := rfl
    by_cases hcond : (bodyAfterCompleted raw).head? = some '('
        ∧ 2 < (bodyAfterCompleted raw).length
        ∧ (bodyAfterCompleted raw).get? 2 = some ')'
    · have hsome : parseTodoLine raw = some
          { text := String.mk (stripChars ((bodyAfterCompleted raw).drop 4))
            completed := List.isPrefixOf ['x', ' '] (stripChars raw)
            priority := (bodyAfterCompleted raw).get? 1 } := by
        simp only [parseTodoLine, bodyAfterCompleted]
        rw [if_neg hnil, if_pos]
        exact hcond
      refine ⟨by simp [hsome, hnil], ?_⟩
      intro item hitem
      rw [hsome] at hitem
      obtain rfl := Option.some_injective _ hitem.symm
      refine ⟨isPrefixOf_two_iff 'x' ' ' (stripChars raw), ?_, ?_, ?_⟩
      · intro c
        have := priorityCond_iff (bodyAfterCompleted raw) c
        constructor
        · intro hc
          exact this.mp ⟨hcond, hc⟩
        · intro hc
          exact (this.mpr hc).2
      · intro c rest hrest
        simp only []
        rw [hrest]
        rfl
      · intro hnone
        exfalso
        obtain ⟨h1, h2, h3⟩ := hcond
        match hb : (bodyAfterCompleted raw).get? 1 with
        | some c => rw [hb] at hnone; exact Option.noConfusion hnone
        | none =>
            rw [List.get?_eq_none] at hb
            omega
    · have hsome : parseTodoLine raw = some
          { text := String.mk (bodyAfterCompleted raw)
            completed := List.isPrefixOf ['x', ' '] (stripChars raw)
            priority := none } := by
        simp only [parseTodoLine, bodyAfterCompleted]
        rw [if_neg hnil, if_neg]
        exact hcond
      refine ⟨by simp [hsome, hnil], ?_⟩
      intro item hitem
      rw [hsome] at hitem
      obtain rfl := Option.some_injective _ hitem.symm
      refine ⟨isPrefixOf_two_iff 'x' ' ' (stripChars raw), ?_, ?_, ?_⟩
      · intro c
        constructor
        · intro hc
          exact Option.noConfusion hc
        · intro hc
          exact absurd ((priorityCond_iff (bodyAfterCompleted raw) c).mpr hc).1 hcond
      · intro c rest hrest
        exact absurd ((priorityCond_iff (bodyAfterCompleted raw) c).mpr ⟨rest, hrest⟩).1 hcond
      · intro _
        rfl

/-- Claim C5 counterexample: the code's priority rule does not require an
uppercase letter or a space after the closing parenthesis, contradicting the
claimed exactly-when condition: the line `(a) hi` — lowercase, so not of the
claimed `(X) ` form — is still parsed with priority `a`, and `(A)xy` — no space
after `)` — is parsed with priority `A` and body `y`. -/
theorem C5_todo_parsing_counterexample :
    load_todos "(a) hi" = [{ text := "hi", completed := false, priority := some 'a' }]
    ∧ 'a'.isUpper = false
    ∧ load_todos "(A)xy" = [{ text := "y", completed := false, priority := some 'A' }] := by
  decide

/-- Claim C5 (amended): the concrete example input parses exactly as the claim
states; a line is skipped exactly when its stripped text is empty; a line is
marked completed, with the prefix stripped, exactly when its stripped text starts
with `x` followed by a space; and a priority `c` is assigned exactly when, after
removing any completion marker, the line starts with `(`, has length above two,
and has `)` as its third character — `c` being the second character, whether or
not it is an uppercase letter and whether or not a space follows — in which case
the first four characters are dropped and the remainder stripped to form the
body; otherwise the priority is absent and the body is the line itself. -/
theorem C5_todo_parsing_amended :
    load_todos "(A) Buy milk\nx Done task\nPlain task\n" =
      [{ text := "Buy milk", completed := false, priority := some 'A' },
       { text := "Done task", completed := true, priority := none },
       { text := "Plain task", completed := false, priority := none }]
    ∧ (∀ raw : List Char,
        (parseTodoLine raw = none ↔ stripChars raw = [])
        ∧ (∀ item : TodoItem, parseTodoLine raw = some item →
            (item.completed = true ↔ ∃ rest, stripChars raw = 'x' :: ' ' :: rest)
            ∧ (∀ c : Char, item.priority = some c ↔
                ∃ rest, bodyAfterCompleted raw = '(' :: c :: ')' :: rest)
            ∧ (∀ (c : Char) (rest : List Char),
                bodyAfterCompleted raw = '(' :: c :: ')' :: rest →
                item.text = String.mk (stripChars (rest.drop 1)))
            ∧ (item.priority = none → item.text = String.mk (bodyAfterCompleted raw)))) :=
  ⟨by decide, parseTodoLine_characterization⟩

/-- Claim C5 witness. -/
theorem C5_todo_parsing_witness :
    parseTodoLine ("x (B) go home".data)
      = some { text := "go home", completed := true, priority := some 'B' }
    ∧ ({ text := "go home", completed := true, priority := some 'B' : TodoItem }.completed = true
        ↔ ∃ rest, stripChars ("x (B) go home".data) = 'x' :: ' ' :: rest) := by
  refine ⟨by decide, ?_⟩
  exact ((C5_todo_parsing_amended.2 ("x (B) go home".data)).2
    { text := "go home", completed := true, priority := some 'B' } (by decide)).1

/-- Claim C6: model-identifier validation is tag-aware: a requested identifier
without an explicit tag matches any installed identifier sharing its base name,
identifiers with different explicit tags on the same base name do not match, and
in particular `llama3` matches installed `llama3:latest`, `llama3:8b` does not
match `llama3:70b`, and `llama3:8b` matches `llama3:8b`. -/
theorem C6_tag_aware_matching :
    _model_exists "llama3" ["llama3:latest"] = true
    ∧ _model_exists "llama3:8b" ["llama3:70b"] = false
    ∧ _model_exists "llama3:8b" ["llama3:8b"] = true
    ∧ (∀ (m a : String) (as : List String), modelTag m = none → modelBase m = modelBase a →
        a ∈ as → _model_exists m as = true)
    ∧ (∀ (m a : String) (tm ta : List Char), modelTag m = some tm → modelTag a = some ta →
        tm ≠ ta → modelBase m = modelBase a → _model_exists m [a] = false) := by
  refine ⟨by decide, by decide, by decide, ?_, ?_⟩
  · intro m a as htag hb ha
    simp only [_model_exists]
    by_cases hm : m ∈ as
    · rw [if_pos hm]
    · rw [if_neg hm, List.any_eq_true]
      refine ⟨a, ha, ?_⟩
      simp only [matchesAvail]
      rw [if_neg (by simp [hb]), if_pos (Or.inl htag)]
  · intro m a tm ta htm hta hne hb
    have hma : m ≠ a := by
      intro h
      rw [h, hta] at htm
      simp only [Option.some.injEq] at htm
      exact hne htm.symm
    simp only [_model_exists]
    rw [if_neg (by simp [hma])]
    simp only [List.any_cons, List.any_nil, Bool.or_false]
    simp only [matchesAvail]
    rw [if_neg (by simp [hb])]
    rw [if_neg (by rintro (h | h) <;> simp_all)]
    rw [if_neg (by rw [htm, hta]; simp [hne])]

/-- Claim C10 (implicit): the tag-aware matching is symmetric in which side
lacks the tag — a requested identifier with an explicit tag matches an installed
identifier without any tag on the same base name, because a match is granted
whenever either side has no tag. -/
theorem C10_symmetric_tag_matching :
    _model_exists "llama3:8b" ["llama3"] = true
    ∧ (∀ (m a : String) (as : List String), modelTag a = none → modelBase m = modelBase a →
        a ∈ as → _model_exists m as = true) := by
  refine ⟨by decide, ?_⟩
  intro m a as htag hb ha
  simp only [_model_exists]
  by_cases hm : m ∈ as
  · rw [if_pos hm]
  · rw [if_neg hm, List.any_eq_true]
    refine ⟨a, ha, ?_⟩
    simp only [matchesAvail]
    rw [if_neg (by simp [hb]), if_pos (Or.inr htag)]

/-- Claim C7: `reload_models` is all-or-nothing: whenever it returns false, the
vision and reasoning selections are both unchanged; it returns false exactly when
some (truthy) requested identifier fails validation against the installed list;
and on success it returns true and updates exactly the requested selections,
leaving an unrequested selection as it was. -/
theorem C7_reload_all_or_nothing (s : OllamaService) (vm rm : Option String)
    (avail : List String) :
    ((reload_models s vm rm avail).1 = false → (reload_models s vm rm avail).2 = s)
    ∧ ((reload_models s vm rm avail).1 = false ↔
        ((pyTruthy vm = true ∧ _model_exists (vm.getD "") avail = false)
          ∨ (pyTruthy rm = true ∧ _model_exists (rm.getD "") avail = false)))
    ∧ ((reload_models s vm rm avail).1 = true →
        (reload_models s vm rm avail).2.vision_model
            = (if pyTruthy vm = true then vm.getD "" else s.vision_model)
        ∧ (reload_models s vm rm avail).2.reasoning_model
            = (if pyTruthy rm = true then rm.getD "" else s.reasoning_model)) := by
  by_cases pv : pyTruthy vm = true <;>
    by_cases pr : pyTruthy rm = true <;>
      by_cases ev : _model_exists (vm.getD "") avail = true <;>
        by_cases er : _model_exists (rm.getD "") avail = true <;>
          simp_all [reload_models]

/-- Claim C9: activating a persona by a name present in the loaded set returns
success and the active persona then bears that name; activating by a nonexistent
name returns failure and leaves the manager — in particular the previously active
persona — unchanged. -/
theorem C9_persona_activation (m : ContextManager) (name : String) :
    ((∃ p ∈ m.personas, p.name = name) →
      (m.set_active_persona name).1 = true
      ∧ ∃ p : Persona, (m.set_active_persona name).2.active_persona = some p
          ∧ p.name = name)
    ∧ ((∀ p ∈ m.personas, p.name ≠ name) →
      (m.set_active_persona name).1 = false ∧ (m.set_active_persona name).2 = m) := by
  constructor
  · rintro ⟨p, hp, hname⟩
    match hfind : m.personas.find? (fun q => q.name = name) with
    | some q =>
        have hq := List.find?_some hfind
        simp only [decide_eq_true_eq] at hq
        simp only [ContextManager.set_active_persona, hfind]
        exact ⟨trivial, q, rfl, hq⟩
    | none =>
        exfalso
        have := List.find?_eq_none.mp hfind p hp
        simp only [decide_eq_true_eq] at this
        exact this hname
  · intro hall
    match hfind : m.personas.find? (fun q => q.name = name) with
    | some q =>
        exfalso
        have hq := List.find?_some hfind
        have hmem := List.mem_of_find?_eq_some hfind
        simp only [decide_eq_true_eq] at hq
        exact hall q hmem hq
    | none =>
        simp [ContextManager.set_active_persona, hfind]

/-- Claim C8 counterexample: with a non-empty image attached and a null
`analyze_image` result, the observation appended to the window has vision
summary `none` — no explanatory fallback string is substituted as the vision
summary, contrary to the claim. -/
theorem C8_vision_null_counterexample :
    ((analyze_activity (ContextManager.init 10 5)
        { meta := { window_title := "editor", class_name := "code",
                    media_status := MediaStatus.unknown, media_info := none,
                    microphone_status := MicrophoneStatus.unknown,
                    user_status := UserStatus.active, timestamp := 0, compositor := none }
          image_present := true
          vision_result := none
          reasoning_result := none }).mgr.context_window.entries.map
      ContextEntry.vision_summary) = [none] := by
  decide

/-- Claim C8 (amended): when `analyze_image` yields a null result the
orchestrator keeps the vision summary absent for that observation — the
explanatory fallback string is substituted only when image processing raises an
exception — and still proceeds with the request, never aborting: the observation
is appended to the window and a normal response is returned whose user status
echoes the request and whose suppression flag follows the usual rule. -/
theorem C8_vision_null_amended (m : ContextManager) (q : AnalyzeRequest)
    (himg : q.image_present = true) (hvn : q.vision_result = none) :
    (analyze_activity m q).mgr.context_window =
      m.context_window.add_entry
        { timestamp := q.meta.timestamp, window_title := q.meta.window_title,
          class_name := q.meta.class_name, media_status := q.meta.media_status,
          user_status := q.meta.user_status, vision_summary := none }
    ∧ (analyze_activity m q).response.user_status = q.meta.user_status
    ∧ ((analyze_activity m q).response.suppress_notification = true ↔
        ((analyze_activity m q).response.feedback = ""
          ∨ q.meta.user_status = UserStatus.in_meeting)) := by
  refine ⟨?_, ?_, analyze_flag_iff m q⟩
  · by_cases hm : q.meta.user_status = UserStatus.in_meeting
    · simp [analyze_activity, himg, hvn, hm, ContextManager.add_context_entry]
    · by_cases hg : m.captures_before_feedback ≤ m.capture_count + 1
      · simp [analyze_activity, himg, hvn, hm, hg, ContextManager.add_context_entry,
          ContextManager.should_generate_feedback, ContextManager.reset_capture_count]
      · simp [analyze_activity, himg, hvn, hm, hg, ContextManager.add_context_entry,
          ContextManager.should_generate_feedback]
  · by_cases hm : q.meta.user_status = UserStatus.in_meeting
    · simp [analyze_activity, hm]
    · by_cases hg : m.captures_before_feedback ≤ m.capture_count + 1
      · simp [analyze_activity, hm, hg, ContextManager.add_context_entry,
          ContextManager.should_generate_feedback]
      · simp [analyze_activity, hm, hg, ContextManager.add_context_entry,
          ContextManager.should_generate_feedback]

/-- Claim C1 witness. -/
theorem C1_sliding_window_witness :
    (addEntries ⟨[], 2⟩ [sampleEntry 0, sampleEntry 1, sampleEntry 2]).entries
      = [sampleEntry 0, sampleEntry 1, sampleEntry 2].drop
          ([sampleEntry 0, sampleEntry 1, sampleEntry 2].length - 2) :=
  (C1_sliding_window 2 (by decide) [sampleEntry 0, sampleEntry 1, sampleEntry 2]).1

/-- Claim C2 witness. -/
theorem C2_feedback_gate_witness :
    (addObservations (ContextManager.init 10 5) [sampleArgs 0, sampleArgs 1]).capture_count
      = [sampleArgs 0, sampleArgs 1].length :=
  (C2_feedback_gate (ContextManager.init 10 5) [sampleArgs 0, sampleArgs 1] rfl).1

/-- Claim C3 witness. -/
theorem C3_meeting_suppression_witness :
    (analyze_activity (ContextManager.init 10 5)
        { meta := meetingMeta, image_present := false, vision_result := none,
          reasoning_result := none }).response.feedback
      = "[Notification suppressed - user in meeting]"
    ∧ (analyze_activity (ContextManager.init 10 5)
        { meta := meetingMeta, image_present := false, vision_result := none,
          reasoning_result := none }).mgr.capture_count
      = (ContextManager.init 10 5).capture_count + 1 :=
  ⟨(C3_meeting_suppression (ContextManager.init 10 5)
      { meta := meetingMeta, image_present := false, vision_result := none,
        reasoning_result := none } rfl).1,
    (C3_meeting_suppression (ContextManager.init 10 5)
      { meta := meetingMeta, image_present := false, vision_result := none,
        reasoning_result := none } rfl).2.2.2⟩

/-- Claim C4 witness. -/
theorem C4_threshold_five_witness :
    (analyze_activity (ContextManager.init 10 5) activeReq).response.feedback = ""
    ∧ (analyze_activity (ContextManager.init 10 5) activeReq).response.suppress_notification
        = true :=
  (C4_threshold_five (ContextManager.init 10 5) activeReq activeReq activeReq activeReq
    activeReq activeReq rfl rfl (by decide) (by decide) (by decide) (by decide) (by decide)
    (by decide)).1

/-- Claim C6 witness. -/
theorem C6_tag_aware_matching_witness :
    _model_exists "moondream" ["moondream:v2"] = true
    ∧ _model_exists "phi3:mini" ["phi3:medium"] = false :=
  ⟨C6_tag_aware_matching.2.2.2.1 "moondream" "moondream:v2" ["moondream:v2"] rfl rfl
      (by decide),
    C6_tag_aware_matching.2.2.2.2 "phi3:mini" "phi3:medium" "mini".data "medium".data rfl rfl
      (by decide) rfl⟩

/-- Claim C7 witness. -/
theorem C7_reload_all_or_nothing_witness :
    (reload_models ⟨"v0", "r0"⟩ (some "vx") none ["other"]).2 = ⟨"v0", "r0"⟩ :=
  (C7_reload_all_or_nothing ⟨"v0", "r0"⟩ (some "vx") none ["other"]).1 (by decide)

/-- Claim C8 witness. -/
theorem C8_vision_null_witness :
    (analyze_activity (ContextManager.init 10 5)
        { meta := activeMeta, image_present := true, vision_result := none,
          reasoning_result := none }).mgr.context_window
      = (ContextManager.init 10 5).context_window.add_entry
          { timestamp := activeMeta.timestamp, window_title := activeMeta.window_title,
            class_name := activeMeta.class_name, media_status := activeMeta.media_status,
            user_status := activeMeta.user_status, vision_summary := none } :=
  (C8_vision_null_amended (ContextManager.init 10 5)
    { meta := activeMeta, image_present := true, vision_result := none,
      reasoning_result := none } rfl rfl).1

/-- Claim C9 witness. -/
theorem C9_persona_activation_witness :
    (personaMgr.set_active_persona "Coach").1 = true
    ∧ ∃ p : Persona, (personaMgr.set_active_persona "Coach").2.active_persona = some p
        ∧ p.name = "Coach" :=
  (C9_persona_activation personaMgr "Coach").1 ⟨samplePersona, by decide, rfl⟩

/-- Claim C10 witness. -/
theorem C10_symmetric_tag_matching_witness :
    _model_exists "qwen:7b" ["qwen"] = true :=
  C10_symmetric_tag_matching.2 "qwen:7b" "qwen" ["qwen"] rfl rfl (by decide)
